import Mathlib

/-!
Shallow embedding of `src/manage_clients.py`, a single-user client-record
manager persisting one JSON file per record in a directory (`sky_clientes`)
together with a counter file (`contador.txt`).

Modelling choices, stated once:
* A client record (the JSON document) is the structure `Cliente` with the
  seven fields the program writes (lines 189-197 of the source).
* The store directory is `FS`: an association list `records` keyed by the
  record identifier `id` — entry `(id, v)` stands for the file
  `cliente_{id}.json`, with `v = none` when the file exists but fails to
  load/parse (`cargar_cliente` returns `None` there) — plus `counterFile`,
  the optional `contador.txt` living in the same directory.  Directory
  listing order is the list order.  A real directory never holds two files
  of the same name, so where a claim needs it we assume `Nodup` keys.
* The process-wide globals are `AppState`: the store, the in-memory counter
  `CONTADOR_CLIENTE` (`contador`) and the in-memory dict `clientes`
  (`clientes : String → Option Cliente`, a finite-support map model of a
  Python dict).
* `input(...).strip()` is modelled by `pyStrip` applied to the raw input
  string; `datetime.now()` values are passed in as the parameters `fecha`
  (YYYYMMDD) and `fechaHora` (the registration timestamp).
* Python's `str(n)` for a natural is `natRepr` (decimal digits); `f"C{n:03d}"`
  zero-pads with `pyFormat03`.
* The regexes are unfolded to executable character-list checks.  Python's
  `$` matches at the end of the string or just before one final newline;
  `pyDollarEnd` keeps that behaviour.  `\d` and the letter classes are taken
  as their ASCII ranges (`Char.isDigit`, `Char.isAlphanum`), and `.upper()`
  `.lower()` as `Char.toUpper`/`Char.toLower` per character.
-/

/-- The client record: the dict built at lines 189-197 of
`src/manage_clients.py` and serialized by `guardar_cliente`. -/
structure Cliente where
  nombre : String
  apellido : String
  tipo : String
  contacto : String
  servicios : List String
  fecha_registro : String
  numero_cliente : String
deriving DecidableEq

/-- The store directory `sky_clientes`: one entry per record file
`cliente_{id}.json` (content `none` when the file fails to load), plus the
optional counter file `contador.txt`. -/
structure FS where
  records : List (String × Option Cliente)
  counterFile : Option Nat
deriving DecidableEq

/-- The module-level mutable state: the directory, the global
`CONTADOR_CLIENTE` and the in-memory dict `clientes`. -/
structure AppState where
  fs : FS
  contador : Nat
  clientes : String → Option Cliente

/-- Python `str.strip()`: drop whitespace from both ends. -/
def pyStrip (s : String) : String :=
  ⟨((s.data.dropWhile Char.isWhitespace).reverse.dropWhile Char.isWhitespace).reverse⟩

/-- Python's `$` anchor: it matches at the end of the string, or just before
a newline that ends the string. -/
def pyDollarEnd (rest : List Char) : Bool :=
  rest.isEmpty || rest == ['\n']

/-- `validate_phone` (line 23): `bool(re.match(r'^\d{10}$', phone))` —
ten digit characters followed by the `$` anchor. -/
def validate_phone (phone : String) : Bool :=
  ((phone.data.take 10).length == 10 && (phone.data.take 10).all Char.isDigit)
    && pyDollarEnd (phone.data.drop 10)

/-- Character class `[a-zA-Z0-9_.+-]` of the email regex's local part. -/
def isLocalChar (c : Char) : Bool :=
  c.isAlphanum || c == '_' || c == '.' || c == '+' || c == '-'

/-- Character class `[a-zA-Z0-9-]` of the email regex's domain label. -/
def isDomainChar (c : Char) : Bool :=
  c.isAlphanum || c == '-'

/-- Character class `[a-zA-Z0-9-.]` of the email regex's final segment. -/
def isTldChar (c : Char) : Bool :=
  c.isAlphanum || c == '-' || c == '.'

/-- `[a-zA-Z0-9-.]+$` on the part after the domain's dot: at least one
character of the class, with `$` also accepting one final newline. -/
def emailTailOk (l : List Char) : Bool :=
  let core := if l.getLast? == some '\n' then l.dropLast else l
  !core.isEmpty && core.all isTldChar

/-- `[a-zA-Z0-9-]+\.[a-zA-Z0-9-.]+$` on the part after `@`: the label before
the first dot is forced because the label class excludes `.`. -/
def emailDomainOk (l : List Char) : Bool :=
  let label := l.takeWhile (fun c => !(c == '.'))
  match l.dropWhile (fun c => !(c == '.')) with
  | '.' :: tl => !label.isEmpty && label.all isDomainChar && emailTailOk tl
  | _ => false

/-- `validate_email` (line 35):
`bool(re.match(r'^[a-zA-Z0-9_.+-]+@[a-zA-Z0-9-]+\.[a-zA-Z0-9-.]+$', email))`.
The split at the first `@` is forced because no class contains `@`. -/
def validate_email (email : String) : Bool :=
  let localPart := email.data.takeWhile (fun c => !(c == '@'))
  match email.data.dropWhile (fun c => !(c == '@')) with
  | '@' :: domain => !localPart.isEmpty && localPart.all isLocalChar && emailDomainOk domain
  | _ => false

/-- The decimal digit characters `'0'..'9'` used by Python's `str(n)`. -/
def digitChar (d : Nat) : Char := Char.ofNat (48 + d)

/-- Decimal printing of a natural, fuelled structural recursion
(`fuel > n` suffices). -/
def natReprAux : Nat → Nat → List Char
  | 0, _ => []
  | fuel + 1, n =>
    if n < 10 then [digitChar n]
    else natReprAux fuel (n / 10) ++ [digitChar (n % 10)]

/-- Python `str(n)` for a natural number. -/
def natRepr (n : Nat) : String := ⟨natReprAux (n + 1) n⟩

/-- Reads a digit string back, used to show `natRepr` loses nothing. -/
def parseDigits (l : List Char) : Nat :=
  l.foldl (fun acc c => acc * 10 + (c.toNat - 48)) 0

/-- Python `f"{n:03d}"`: the decimal digits of `n`, left-padded with `'0'`
to width 3 (the field simply widens past 999). -/
def pyFormat03 (n : Nat) : String :=
  ⟨List.replicate (3 - (natRepr n).data.length) '0' ++ (natRepr n).data⟩

/-- The identifier candidates tried by `generate_unique_id` (lines 67-72):
the base id, then `base_1`, `base_2`, ... -/
def candidate (base : String) : Nat → String
  | 0 => base
  | k + 1 => base ++ "_" ++ natRepr (k + 1)

/-- The `while path.exists(...)` loop of `generate_unique_id`: return the
first candidate whose record file does not exist (`used` is the set of ids
with a file).  Fuel `used.length + 1` always suffices. -/
def genLoop (used : List String) (base : String) : Nat → Nat → String
  | 0, k => candidate base k
  | fuel + 1, k =>
    if candidate base k ∈ used then genLoop used base fuel (k + 1)
    else candidate base k

/-- Line 61: `(nombre[0] + (apellido[0] if apellido else '')).upper()`. -/
def iniciales (nombre apellido : String) : List Char :=
  match nombre.data with
  | [] => []
  | n0 :: _ => n0.toUpper :: (match apellido.data with
    | [] => []
    | a0 :: _ => [a0.toUpper])

/-- Line 65: `f"{iniciales}_{fecha}"`. -/
def baseId (nombre apellido fecha : String) : String :=
  (⟨iniciales nombre apellido⟩ : String) ++ "_" ++ fecha

/-- `generate_unique_id` for a non-empty `nombre` (`crear_cliente` only
calls it after the emptiness checks). -/
def genUniqueIdCore (nombre apellido fecha : String) (used : List String) : String :=
  genLoop used (baseId nombre apellido fecha) (used.length + 1) 0

/-- `generate_unique_id` (line 47).  `nombre[0]` raises on an empty name,
modelled as `none`; `used` is the set of ids whose file exists. -/
def generate_unique_id (nombre apellido fecha : String) (used : List String) :
    Option String :=
  match nombre.data with
  | [] => none
  | _ :: _ => some (genUniqueIdCore nombre apellido fecha used)

/-- Writing file `cliente_{id}.json`: overwrite the existing entry, else a
new directory entry appears. -/
def setRecord (id : String) (v : Option Cliente) :
    List (String × Option Cliente) → List (String × Option Cliente)
  | [] => [(id, v)]
  | (k, w) :: rest => if k = id then (k, v) :: rest else (k, w) :: setRecord id v rest

/-- Reading file `cliente_{id}.json` from the directory. -/
def cargarFile (id : String) : List (String × Option Cliente) → Option Cliente
  | [] => none
  | (k, w) :: rest => if k = id then w else cargarFile id rest

/-- `os.remove` of file `cliente_{id}.json`. -/
def removeRecord (id : String) :
    List (String × Option Cliente) → List (String × Option Cliente)
  | [] => []
  | (k, v) :: rest => if k = id then rest else (k, v) :: removeRecord id rest

/-- `guardar_cliente` (line 89): serialize `cliente_data` to
`cliente_{cliente_id}.json`, overwriting any existing file. -/
def guardar_cliente (cliente_id : String) (cliente_data : Cliente) (fs : FS) : FS :=
  { fs with records := setRecord cliente_id (some cliente_data) fs.records }

/-- `cargar_cliente` (line 110): load `cliente_{cliente_id}.json`; `none`
when the file is absent or fails to parse. -/
def cargar_cliente (cliente_id : String) (fs : FS) : Option Cliente :=
  cargarFile cliente_id fs.records

/-- Python `str.lower()` per character. -/
def lowerStr (s : String) : String := ⟨s.data.map Char.toLower⟩

/-- Whether the first list is an initial segment of the second. -/
def startsWithChars : List Char → List Char → Bool
  | [], _ => true
  | _ :: _, [] => false
  | a :: as, b :: bs => a == b && startsWithChars as bs

/-- Python's substring test `needle in haystack`. -/
def substrCheck (needle : List Char) : List Char → Bool
  | [] => needle.isEmpty
  | c :: rest => startsWithChars needle (c :: rest) || substrCheck needle rest

/-- The three search predicates of `buscar_clientes` (lines 147-152):
`numero` compares customer numbers case-insensitively, `id` compares the
identifier exactly, `nombre` is a case-insensitive substring test against
`f"{nombre} {apellido}"`. -/
def buscarPred (criterio valor cliente_id : String) (cliente : Cliente) : Bool :=
  if criterio == "numero" then lowerStr cliente.numero_cliente == lowerStr valor
  else if criterio == "id" then cliente_id == valor
  else if criterio == "nombre" then
    substrCheck (lowerStr valor).data (lowerStr (cliente.nombre ++ " " ++ cliente.apellido)).data
  else false

/-- The `for archivo in listdir(...)` loop of `buscar_clientes`: load each
record file in directory order, skip the ones that do not load (`if cliente:`),
keep the ones matching the predicate. -/
def buscarLoop (criterio valor : String) :
    List (String × Option Cliente) → List (String × Cliente)
  | [] => []
  | (_, none) :: rest => buscarLoop criterio valor rest
  | (cliente_id, some cliente) :: rest =>
    if buscarPred criterio valor cliente_id cliente then
      (cliente_id, cliente) :: buscarLoop criterio valor rest
    else buscarLoop criterio valor rest

/-- `buscar_clientes` (line 129). -/
def buscar_clientes (criterio valor : String) (s : AppState) : List (String × Cliente) :=
  buscarLoop criterio valor s.fs.records

/-- One step of `buscar_clientes` as the specification words it: the record
loads successfully and satisfies the selected predicate, failures are
silently skipped.  Used to state what the loop computes. -/
def buscarF (criterio valor : String) (p : String × Option Cliente) :
    Option (String × Cliente) :=
  match p with
  | (_, none) => none
  | (cliente_id, some cliente) =>
    if buscarPred criterio valor cliente_id cliente then some (cliente_id, cliente)
    else none

/-- `generate_cliente_number` (line 76): increment `CONTADOR_CLIENTE`, write
the new value to `contador.txt`, return `f"C{n:03d}"`. -/
def generate_cliente_number (s : AppState) : String × AppState :=
  let n := s.contador + 1
  ("C" ++ pyFormat03 n,
   { s with contador := n, fs := { s.fs with counterFile := some n } })

/-- Assignment `clientes[cliente_id] = ...` on the in-memory dict. -/
def cacheInsert (id : String) (c : Cliente) (cache : String → Option Cliente) :
    String → Option Cliente :=
  fun x => if x = id then some c else cache x

/-- `del clientes[cliente_id]` on the in-memory dict. -/
def cacheErase (id : String) (cache : String → Option Cliente) :
    String → Option Cliente :=
  fun x => if x = id then none else cache x

/-- The criterion sub-menu shared by read/update/delete: `"1"` searches by
customer number, `"2"` by id, `"3"` by name, anything else is invalid. -/
def criterioOf (opcion : String) : Option String :=
  if opcion == "1" then some "numero"
  else if opcion == "2" then some "id"
  else if opcion == "3" then some "nombre"
  else none

/-- Python `str.capitalize()`: first character upper-cased, the rest
lower-cased. -/
def pyCapitalize (s : String) : String :=
  match s.data with
  | [] => ""
  | c :: rest => ⟨c.toUpper :: rest.map Char.toLower⟩

/-- Outcome of `crear_cliente`: each abort message, or success with the
generated identifier and customer number. -/
inductive CrearResult where
  | emptyNombre
  | emptyApellido
  | invalidTipo
  | invalidContacto
  | created (cliente_id numero : String)
deriving DecidableEq

/-- `crear_cliente` (line 155).  The interactive inputs arrive as the raw
strings `nombre_in`, `apellido_in`, `tipo_in`, `contacto_in`; `fecha` and
`fechaHora` stand for `datetime.now()`. -/
def crear_cliente (nombre_in apellido_in tipo_in contacto_in fecha fechaHora : String)
    (s : AppState) : CrearResult × AppState :=
  match (pyStrip nombre_in).data with
  | [] => (.emptyNombre, s)
  | _ :: _ =>
    match (pyStrip apellido_in).data with
    | [] => (.emptyApellido, s)
    | _ :: _ =>
      if !(pyCapitalize (pyStrip tipo_in) == "Persona" ||
           pyCapitalize (pyStrip tipo_in) == "Negocio") then (.invalidTipo, s)
      else
        if validate_phone (pyStrip contacto_in) ||
           validate_email (pyStrip contacto_in) then
          (.created
            (genUniqueIdCore (pyStrip nombre_in) (pyStrip apellido_in) fecha
              (s.fs.records.map Prod.fst))
            (generate_cliente_number s).1,
           { (generate_cliente_number s).2 with
              clientes := (cacheInsert
                (genUniqueIdCore (pyStrip nombre_in) (pyStrip apellido_in) fecha
                  (s.fs.records.map Prod.fst))
                { nombre := pyStrip nombre_in, apellido := pyStrip apellido_in,
                  tipo := pyCapitalize (pyStrip tipo_in), contacto := pyStrip contacto_in,
                  servicios := [], fecha_registro := fechaHora,
                  numero_cliente := (generate_cliente_number s).1 }
                (generate_cliente_number s).2.clientes),
              fs := (guardar_cliente
                (genUniqueIdCore (pyStrip nombre_in) (pyStrip apellido_in) fecha
                  (s.fs.records.map Prod.fst))
                { nombre := pyStrip nombre_in, apellido := pyStrip apellido_in,
                  tipo := pyCapitalize (pyStrip tipo_in), contacto := pyStrip contacto_in,
                  servicios := [], fecha_registro := fechaHora,
                  numero_cliente := (generate_cliente_number s).1 }
                (generate_cliente_number s).2.fs) })
        else (.invalidContacto, s)

/-- Outcome of `leer_cliente`. -/
inductive LeerResult where
  | invalidOpcion
  | found (resultados : List (String × Cliente))
  | notFound
deriving DecidableEq

/-- `leer_cliente` (line 205): pick the criterion, search, display every
match or report not found.  Reads change no state. -/
def leer_cliente (opcion_in valor_in : String) (s : AppState) : LeerResult :=
  match criterioOf (pyStrip opcion_in) with
  | none => .invalidOpcion
  | some criterio =>
    match buscar_clientes criterio (pyStrip valor_in) s with
    | [] => .notFound
    | x :: xs => .found (x :: xs)

/-- Outcome of `modificar_cliente`: the ambiguity report carries the
candidate list whose id and customer number are printed. -/
inductive ModResult where
  | invalidOpcion
  | notFound
  | multiple (cands : List (String × Cliente))
  | emptyServicio
  | ok (cliente_id : String) (cliente : Cliente)
deriving DecidableEq

/-- `modificar_cliente` (line 231): search; zero matches reports not found,
several report ambiguity, exactly one appends the non-empty service and
persists the record. -/
def modificar_cliente (opcion_in valor_in servicio_in : String) (s : AppState) :
    ModResult × AppState :=
  match criterioOf (pyStrip opcion_in) with
  | none => (.invalidOpcion, s)
  | some criterio =>
    match buscar_clientes criterio (pyStrip valor_in) s with
    | [] => (.notFound, s)
    | [(cliente_id, cliente)] =>
      match (pyStrip servicio_in).data with
      | [] => (.emptyServicio, s)
      | _ :: _ =>
        (.ok cliente_id
          { cliente with servicios := cliente.servicios ++ [pyStrip servicio_in] },
         { s with fs := (guardar_cliente cliente_id
              { cliente with servicios := cliente.servicios ++ [pyStrip servicio_in] }
              s.fs) })
    | x :: y :: rest => (.multiple (x :: y :: rest), s)

/-- Outcome of `eliminar_cliente`. -/
inductive DelResult where
  | invalidOpcion
  | notFound
  | multiple (cands : List (String × Cliente))
  | ok (cliente_id numero : String)
  | missing
deriving DecidableEq

/-- `eliminar_cliente` (line 268): search; on exactly one match remove the
record file and evict the in-memory cache entry. -/
def eliminar_cliente (opcion_in valor_in : String) (s : AppState) :
    DelResult × AppState :=
  match criterioOf (pyStrip opcion_in) with
  | none => (.invalidOpcion, s)
  | some criterio =>
    match buscar_clientes criterio (pyStrip valor_in) s with
    | [] => (.notFound, s)
    | [(cliente_id, cliente)] =>
      if cliente_id ∈ s.fs.records.map Prod.fst then
        (.ok cliente_id cliente.numero_cliente,
         { s with fs := { s.fs with records := removeRecord cliente_id s.fs.records },
                  clientes := cacheErase cliente_id s.clientes })
      else (.missing, s)
    | x :: y :: rest => (.multiple (x :: y :: rest), s)

/-- Outcome of `listar_clientes`. -/
inductive ListarResult where
  | noRecords
  | lines (resumen : List (String × Cliente))
deriving DecidableEq

/-- The printing loop of `listar_clientes`: one summary line per record file
that loads successfully. -/
def listarLines : List (String × Option Cliente) → List (String × Cliente)
  | [] => []
  | (_, none) :: rest => listarLines rest
  | (cliente_id, some cliente) :: rest => (cliente_id, cliente) :: listarLines rest

/-- Line 344: `if not listdir(CLIENTES_DIR)` — the listing covers every file
of the directory, the counter file included. -/
def listdirIsEmpty (fs : FS) : Bool :=
  fs.records.isEmpty && fs.counterFile.isNone

/-- `listar_clientes` (line 340). -/
def listar_clientes (fs : FS) : ListarResult :=
  if listdirIsEmpty fs then .noRecords else .lines (listarLines fs.records)

/-- `listar_clientes` as dispatched from the menu, on the full state. -/
def listarApp (s : AppState) : ListarResult := listar_clientes s.fs

/-- A concrete record shared by the witness statements below. -/
def sampleCliente : Cliente :=
  { nombre := "Ana", apellido := "Bo", tipo := "Persona", contacto := "5512345678",
    servicios := ["S1", "S2"], fecha_registro := "2025-06-02 10:00:00",
    numero_cliente := "C001" }

/-- A one-record store shared by the witness statements below. -/
def sampleFS : FS := { records := [("X1", some sampleCliente)], counterFile := some 1 }

/-- The empty in-memory dict. -/
def emptyCache : String → Option Cliente := fun _ => none

/-- A concrete program state shared by the witness statements below. -/
def sampleState : AppState := { fs := sampleFS, contador := 1, clientes := emptyCache }

/-! ### String and decimal-printing lemmas -/

theorem string_eq_iff_data (a b : String) : a = b ↔ a.data = b.data :=
  ⟨congrArg String.data, fun h => by cases a; cases b; exact congrArg String.mk h⟩

theorem string_data_append (a b : String) : (a ++ b).data = a.data ++ b.data :=
  String.data_append a b

theorem natReprAux_fuel : ∀ f₁ f₂ n, n < f₁ → n < f₂ →
    natReprAux f₁ n = natReprAux f₂ n := by
  intro f₁
  induction f₁ with
  | zero => intro f₂ n h₁; omega
  | succ g ih =>
    intro f₂ n h₁ h₂
    cases f₂ with
    | zero => omega
    | succ h =>
      by_cases hn : n < 10
      · simp [natReprAux, hn]
      · have hd : n / 10 < n := Nat.div_lt_self (by omega) (by omega)
        simp only [natReprAux, hn, if_false]
        rw [ih (h) (n / 10) (by omega) (by omega)]

theorem natRepr_data_lt (n : Nat) (h : n < 10) : (natRepr n).data = [digitChar n] := by
  simp [natRepr, natReprAux, h]

theorem natReprAux_succ (f n : Nat) :
    natReprAux (f + 1) n =
      if n < 10 then [digitChar n] else natReprAux f (n / 10) ++ [digitChar (n % 10)] := rfl

theorem natRepr_data_ge (n : Nat) (h : 10 ≤ n) :
    (natRepr n).data = (natRepr (n / 10)).data ++ [digitChar (n % 10)] := by
  have hd : n / 10 < n := Nat.div_lt_self (by omega) (by omega)
  show natReprAux (n + 1) n = natReprAux (n / 10 + 1) (n / 10) ++ [digitChar (n % 10)]
  rw [natReprAux_succ n n, if_neg (by omega),
    natReprAux_fuel n (n / 10 + 1) (n / 10) (by omega) (by omega)]

theorem digitChar_toNat : ∀ d, d < 10 → (digitChar d).toNat = 48 + d := by decide

theorem parseDigits_snoc (l : List Char) (c : Char) :
    parseDigits (l ++ [c]) = parseDigits l * 10 + (c.toNat - 48) := by
  simp [parseDigits, List.foldl_append]

theorem parseDigits_natRepr (n : Nat) : parseDigits (natRepr n).data = n := by
  induction n using Nat.strong_induction_on with
  | _ n ih =>
    by_cases h : n < 10
    · rw [natRepr_data_lt n h]
      simp [parseDigits, digitChar_toNat n h]
    · have h10 : 10 ≤ n := by omega
      have hd : n / 10 < n := Nat.div_lt_self (by omega) (by omega)
      rw [natRepr_data_ge n h10, parseDigits_snoc, ih (n / 10) hd,
        digitChar_toNat (n % 10) (by omega)]
      omega

theorem natRepr_injective : Function.Injective natRepr := by
  intro a b h
  have := congrArg (fun s => parseDigits s.data) h
  simpa [parseDigits_natRepr] using this

theorem natRepr_data_ne_nil (n : Nat) : (natRepr n).data ≠ [] := by
  by_cases h : n < 10
  · rw [natRepr_data_lt n h]; simp
  · rw [natRepr_data_ge n (by omega)]; simp

theorem parseDigits_zeros : ∀ (k : Nat) (l : List Char),
    parseDigits (List.replicate k '0' ++ l) = parseDigits l := by
  intro k
  induction k with
  | zero => intro l; simp
  | succ m ih =>
    intro l
    have : List.replicate (m + 1) '0' ++ l = '0' :: (List.replicate m '0' ++ l) := by
      simp [List.replicate_succ]
    rw [this]
    show List.foldl _ ((0 : Nat) * 10 + ('0'.toNat - 48)) _ = _
    have h0 : (0 : Nat) * 10 + ('0'.toNat - 48) = 0 := by decide
    rw [h0]
    exact ih l

theorem parseDigits_pyFormat03 (n : Nat) : parseDigits (pyFormat03 n).data = n := by
  show parseDigits (List.replicate _ '0' ++ (natRepr n).data) = n
  rw [parseDigits_zeros, parseDigits_natRepr]

theorem natRepr_data_length_pos (n : Nat) : 0 < (natRepr n).data.length := by
  cases hd : (natRepr n).data with
  | nil => exact absurd hd (natRepr_data_ne_nil n)
  | cons c l => simp

theorem natRepr_length_succ (n : Nat) (h : 10 ≤ n) :
    (natRepr n).data.length = (natRepr (n / 10)).data.length + 1 := by
  rw [natRepr_data_ge n h]; simp

theorem natRepr_length_ge_four (n : Nat) (h : 1000 ≤ n) :
    4 ≤ (natRepr n).data.length := by
  have h1 : 100 ≤ n / 10 := (Nat.le_div_iff_mul_le (by omega)).mpr (by omega)
  have h2 : 10 ≤ n / 10 / 10 := (Nat.le_div_iff_mul_le (by omega)).mpr (by omega)
  have h3 : 0 < (natRepr (n / 10 / 10 / 10)).data.length := natRepr_data_length_pos _
  rw [natRepr_length_succ n (by omega), natRepr_length_succ (n / 10) (by omega),
    natRepr_length_succ (n / 10 / 10) (by omega)]
  omega

theorem pyFormat03_wide (n : Nat) (h : 1000 ≤ n) : pyFormat03 n = natRepr n := by
  have h4 := natRepr_length_ge_four n h
  have : 3 - (natRepr n).data.length = 0 := by omega
  rw [string_eq_iff_data]
  show List.replicate (3 - (natRepr n).data.length) '0' ++ (natRepr n).data = _
  rw [this]
  simp

/-! ### Identifier-candidate lemmas -/

theorem candidate_data_succ (base : String) (k : Nat) :
    (candidate base (k + 1)).data = (base.data ++ ['_']) ++ (natRepr (k + 1)).data := by
  show ((base ++ "_") ++ natRepr (k + 1)).data = _
  rw [string_data_append, string_data_append]

theorem candidate_injective (base : String) :
    Function.Injective (candidate base) := by
  intro i j h
  cases i with
  | zero =>
    cases j with
    | zero => rfl
    | succ j =>
      exfalso
      have hlen := congrArg (fun s => s.data.length) h
      simp only [candidate, candidate_data_succ] at hlen
      simp at hlen
  | succ i =>
    cases j with
    | zero =>
      exfalso
      have hlen := congrArg (fun s => s.data.length) h
      simp only [candidate, candidate_data_succ] at hlen
      simp at hlen
    | succ j =>
      have hdata := congrArg String.data h
      rw [candidate_data_succ, candidate_data_succ] at hdata
      have hrep : (natRepr (i + 1)).data = (natRepr (j + 1)).data :=
        List.append_cancel_left hdata
      have : natRepr (i + 1) = natRepr (j + 1) := (string_eq_iff_data _ _).mpr hrep
      have := natRepr_injective this
      omega

theorem exists_free_candidate (used : List String) (base : String) :
    ∃ k, k ≤ used.length ∧ candidate base k ∉ used := by
  by_contra hall
  push_neg at hall
  have hsub : (List.range (used.length + 1)).map (candidate base) ⊆ used := by
    intro x hx
    rcases List.mem_map.mp hx with ⟨k, hk, rfl⟩
    exact hall k (by simpa using Nat.lt_succ_iff.mp (List.mem_range.mp hk))
  have hnd : ((List.range (used.length + 1)).map (candidate base)).Nodup :=
    (List.nodup_range _).map (candidate_injective base)
  have := (List.subperm_of_subset hnd hsub).length_le
  simp at this

theorem genLoop_found (used : List String) (base : String) :
    ∀ fuel k, (∃ m, k ≤ m ∧ m < k + fuel ∧ candidate base m ∉ used) →
      ∃ r, genLoop used base fuel k = candidate base r ∧ k ≤ r ∧
        candidate base r ∉ used ∧ ∀ j, k ≤ j → j < r → candidate base j ∈ used := by
  intro fuel
  induction fuel with
  | zero =>
    intro k ⟨m, h1, h2, _⟩
    omega
  | succ f ih =>
    intro k hm
    by_cases hk : candidate base k ∈ used
    · have hm' : ∃ m, k + 1 ≤ m ∧ m < (k + 1) + f ∧ candidate base m ∉ used := by
        rcases hm with ⟨m, h1, h2, h3⟩
        refine ⟨m, ?_, by omega, h3⟩
        rcases Nat.eq_or_lt_of_le h1 with rfl | h
        · exact absurd hk h3
        · omega
      rcases ih (k + 1) hm' with ⟨r, hr, hkr, hfree, hprev⟩
      refine ⟨r, ?_, by omega, hfree, ?_⟩
      · simpa [genLoop, hk] using hr
      · intro j hj1 hj2
        rcases Nat.eq_or_lt_of_le hj1 with rfl | h
        · exact hk
        · exact hprev j h hj2
    · exact ⟨k, by simp [genLoop, hk], le_refl k, hk, by omega⟩

theorem genUniqueIdCore_spec (nombre apellido fecha : String) (used : List String) :
    ∃ r, genUniqueIdCore nombre apellido fecha used =
        candidate (baseId nombre apellido fecha) r ∧
      candidate (baseId nombre apellido fecha) r ∉ used ∧
      ∀ j, j < r → candidate (baseId nombre apellido fecha) j ∈ used := by
  rcases exists_free_candidate used (baseId nombre apellido fecha) with ⟨m, hm, hfree⟩
  rcases genLoop_found used (baseId nombre apellido fecha) (used.length + 1) 0
      ⟨m, by omega, by omega, hfree⟩ with ⟨r, hr, _, hfree', hprev⟩
  exact ⟨r, hr, hfree', fun j hj => hprev j (by omega) hj⟩

/-! ### Record-store lemmas -/

theorem cargarFile_setRecord (id : String) (v : Option Cliente) :
    ∀ l, cargarFile id (setRecord id v l) = v := by
  intro l
  induction l with
  | nil => simp [setRecord, cargarFile]
  | cons p rest ih =>
    obtain ⟨k, w⟩ := p
    by_cases hk : k = id
    · simp [setRecord, cargarFile, hk]
    · simp [setRecord, cargarFile, hk, ih]

theorem keys_removeRecord (id : String) :
    ∀ l : List (String × Option Cliente), (l.map Prod.fst).Nodup →
      id ∉ (removeRecord id l).map Prod.fst := by
  intro l
  induction l with
  | nil => intro _; simp [removeRecord]
  | cons p rest ih =>
    obtain ⟨k, w⟩ := p
    intro hnd
    simp only [List.map_cons, List.nodup_cons] at hnd
    by_cases hk : k = id
    · subst hk
      simpa [removeRecord] using hnd.1
    · intro hmem
      simp only [removeRecord, if_neg hk, List.map_cons, List.mem_cons] at hmem
      rcases hmem with h | h
      · exact hk h.symm
      · exact ih hnd.2 h

/-! ### Search lemmas -/

theorem buscarLoop_eq_filterMap (criterio valor : String) :
    ∀ l, buscarLoop criterio valor l = l.filterMap (buscarF criterio valor) := by
  intro l
  induction l with
  | nil => simp [buscarLoop]
  | cons p rest ih =>
    obtain ⟨cliente_id, oc⟩ := p
    cases oc with
    | none => simp [buscarLoop, List.filterMap_cons, buscarF, ih]
    | some cliente =>
      by_cases hpred : buscarPred criterio valor cliente_id cliente
      · simp [buscarLoop, List.filterMap_cons, buscarF, hpred, ih]
      · simp [buscarLoop, List.filterMap_cons, buscarF, hpred, ih]

theorem mem_buscar_clientes (criterio valor : String) (s : AppState)
    (cliente_id : String) (cliente : Cliente) :
    (cliente_id, cliente) ∈ buscar_clientes criterio valor s ↔
      ((cliente_id, some cliente) ∈ s.fs.records ∧
        buscarPred criterio valor cliente_id cliente = true) := by
  show (cliente_id, cliente) ∈ buscarLoop criterio valor s.fs.records ↔ _
  rw [buscarLoop_eq_filterMap, List.mem_filterMap]
  constructor
  · rintro ⟨⟨k, oc⟩, hmem, hf⟩
    cases oc with
    | none => simp [buscarF] at hf
    | some c =>
      simp only [buscarF] at hf
      by_cases hpred : buscarPred criterio valor k c
      · rw [if_pos hpred] at hf
        obtain ⟨rfl, rfl⟩ : k = cliente_id ∧ c = cliente := by
          have := Option.some.inj hf
          exact ⟨congrArg Prod.fst this, congrArg Prod.snd this⟩
        exact ⟨hmem, hpred⟩
      · rw [if_neg hpred] at hf
        exact absurd hf (by simp)
  · rintro ⟨hmem, hpred⟩
    exact ⟨(cliente_id, some cliente), hmem, by simp [buscarF, hpred]⟩

theorem buscarLoop_id_nil (valor : String) :
    ∀ l : List (String × Option Cliente), valor ∉ l.map Prod.fst →
      buscarLoop "id" valor l = [] := by
  intro l
  induction l with
  | nil => intro _; rfl
  | cons p rest ih =>
    obtain ⟨k, oc⟩ := p
    intro hmem
    simp only [List.map_cons, List.mem_cons, not_or] at hmem
    have hk : k ≠ valor := fun h => hmem.1 h.symm
    cases oc with
    | none => exact ih hmem.2
    | some c =>
      have hpred : buscarPred "id" valor k c = false := by
        simp [buscarPred, hk]
      simp [buscarLoop, hpred, ih hmem.2]

theorem listarLines_eq_filterMap :
    ∀ l : List (String × Option Cliente),
      listarLines l = l.filterMap (fun p => p.2.map (fun c => (p.1, c))) := by
  intro l
  induction l with
  | nil => rfl
  | cons p rest ih =>
    obtain ⟨cliente_id, oc⟩ := p
    cases oc with
    | none => simp [listarLines, List.filterMap_cons, ih]
    | some cliente => simp [listarLines, List.filterMap_cons, ih]

/-! ### The claims -/

/-- Claim C1: for every record and every identifier, `guardar_cliente` then
`cargar_cliente` on that identifier returns a record equal in all seven
fields to the one saved. -/
theorem c1_guardar_then_cargar_roundtrip (cliente_id : String) (cliente : Cliente)
    (fs : FS) :
    ∃ c, cargar_cliente cliente_id (guardar_cliente cliente_id cliente fs) = some c ∧
      c.nombre = cliente.nombre ∧ c.apellido = cliente.apellido ∧
      c.tipo = cliente.tipo ∧ c.contacto = cliente.contacto ∧
      c.servicios = cliente.servicios ∧ c.fecha_registro = cliente.fecha_registro ∧
      c.numero_cliente = cliente.numero_cliente :=
  ⟨cliente, cargarFile_setRecord cliente_id (some cliente) fs.records,
   rfl, rfl, rfl, rfl, rfl, rfl, rfl⟩

/-- Claim C2: `generate_cliente_number` increments the process-wide counter
by exactly one, records the new value in the counter file of the returned
state, and returns `"C"` followed by the new value zero-padded to three
digits (the padding disappears past 999, the decimal field simply widens);
a second call yields the next integer, so successive customer numbers encode
strictly increasing integers, and a fresh counter of 0 yields `"C001"`. -/
theorem c2_generate_cliente_number (s : AppState) :
    (generate_cliente_number s).2.contador = s.contador + 1 ∧
    (generate_cliente_number s).2.fs.counterFile = some (s.contador + 1) ∧
    (generate_cliente_number s).2.fs.records = s.fs.records ∧
    (generate_cliente_number s).1 = "C" ++ pyFormat03 (s.contador + 1) ∧
    parseDigits (pyFormat03 (s.contador + 1)).data = s.contador + 1 ∧
    (generate_cliente_number (generate_cliente_number s).2).2.contador = s.contador + 2 ∧
    s.contador + 1 < s.contador + 2 ∧
    (s.contador = 0 → (generate_cliente_number s).1 = "C001") ∧
    (1000 ≤ s.contador + 1 →
      (generate_cliente_number s).1 = "C" ++ natRepr (s.contador + 1)) := by
  refine ⟨rfl, rfl, rfl, rfl, parseDigits_pyFormat03 _, rfl, by omega, ?_, ?_⟩
  · intro h
    show "C" ++ pyFormat03 (s.contador + 1) = "C001"
    rw [h]
    decide
  · intro h
    show "C" ++ pyFormat03 (s.contador + 1) = "C" ++ natRepr (s.contador + 1)
    rw [pyFormat03_wide _ h]

/-- Claim C3: for a non-empty given name, `generate_unique_id` returns some
identifier of the candidate family built on the base id (upper-cased
initials, underscore, date), the returned identifier does not collide with
any existing record file, every earlier candidate (`base`, `base_1`, ...,
in order) is already used, and when the base id itself is unused it is
returned unchanged. -/
theorem c3_generate_unique_id (nombre apellido fecha : String) (used : List String)
    (h : nombre ≠ "") :
    ∃ uid r, generate_unique_id nombre apellido fecha used = some uid ∧
      uid = candidate (baseId nombre apellido fecha) r ∧
      uid ∉ used ∧
      (∀ j, j < r → candidate (baseId nombre apellido fecha) j ∈ used) ∧
      (baseId nombre apellido fecha ∉ used → uid = baseId nombre apellido fecha) := by
  rcases genUniqueIdCore_spec nombre apellido fecha used with ⟨r, hr, hfree, hprev⟩
  have hd : nombre.data ≠ [] := by
    intro hnil
    exact h ((string_eq_iff_data nombre "").mpr (by simp [hnil]))
  obtain ⟨c, rest, hdata⟩ : ∃ c rest, nombre.data = c :: rest := by
    cases hd' : nombre.data with
    | nil => exact absurd hd' hd
    | cons c rest => exact ⟨c, rest, rfl⟩
  refine ⟨genUniqueIdCore nombre apellido fecha used, r, ?_, hr, ?_, hprev, ?_⟩
  · show generate_unique_id nombre apellido fecha used = _
    unfold generate_unique_id
    rw [hdata]
  · rw [hr]; exact hfree
  · intro hbase
    rcases Nat.eq_zero_or_pos r with rfl | hpos
    · rw [hr]; rfl
    · exact absurd (hprev 0 hpos) (by simpa [candidate] using hbase)

/-- Witness for C3 at the spec's own example: two clients with initials
`AB` on 2025-06-02, the first id already taken. -/
theorem c3_witness :
    ("Ana" : String) ≠ "" ∧
    generate_unique_id "Ana" "Bo" "20250602" ["AB_20250602"] = some "AB_20250602_1" ∧
    ∃ uid r, generate_unique_id "Ana" "Bo" "20250602" ["AB_20250602"] = some uid ∧
      uid = candidate (baseId "Ana" "Bo" "20250602") r ∧
      uid ∉ ["AB_20250602"] ∧
      (∀ j, j < r → candidate (baseId "Ana" "Bo" "20250602") j ∈ ["AB_20250602"]) ∧
      (baseId "Ana" "Bo" "20250602" ∉ ["AB_20250602"] →
        uid = baseId "Ana" "Bo" "20250602") :=
  ⟨by decide, by decide,
   c3_generate_unique_id "Ana" "Bo" "20250602" ["AB_20250602"] (by decide)⟩

/-- Claim C7: `buscar_clientes` returns exactly the successfully loaded
records satisfying the selected predicate, in directory order, silently
skipping entries that fail to load; the three criteria are the
case-insensitive customer-number equality, the exact identifier equality
and the case-insensitive name substring test. -/
theorem c7_buscar_clientes (criterio valor : String) (s : AppState) :
    buscar_clientes criterio valor s = s.fs.records.filterMap (buscarF criterio valor) ∧
    (∀ cliente_id cliente, (cliente_id, cliente) ∈ buscar_clientes criterio valor s ↔
      ((cliente_id, some cliente) ∈ s.fs.records ∧
        buscarPred criterio valor cliente_id cliente = true)) ∧
    (∀ cliente_id (cliente : Cliente), buscarPred "numero" valor cliente_id cliente =
      (lowerStr cliente.numero_cliente == lowerStr valor)) ∧
    (∀ cliente_id (cliente : Cliente), buscarPred "id" valor cliente_id cliente =
      (cliente_id == valor)) ∧
    (∀ cliente_id (cliente : Cliente), buscarPred "nombre" valor cliente_id cliente =
      substrCheck (lowerStr valor).data
        (lowerStr (cliente.nombre ++ " " ++ cliente.apellido)).data) :=
  ⟨buscarLoop_eq_filterMap criterio valor s.fs.records,
   mem_buscar_clientes criterio valor s,
   fun _ _ => rfl, fun _ _ => rfl, fun _ _ => rfl⟩

/-- Counterexample to C8 as stated: `"0123456789\n"` has length 11 and
contains a non-digit, yet `validate_phone` accepts it, because Python's `$`
also matches just before one final newline. -/
theorem c8_counterexample :
    validate_phone "0123456789\n" = true ∧
    ("0123456789\n" : String).data.length = 11 ∧
    ("0123456789\n" : String).data.all Char.isDigit = false := by decide

/-- Claim C8, amended: `validate_phone s` is true iff `s` is exactly ten
decimal digits, or ten decimal digits followed by one final newline (the
behaviour of Python's `$` anchor). -/
theorem c8_validate_phone_amended (s : String) :
    validate_phone s = true ↔
      ((s.data.length = 10 ∧ s.data.all Char.isDigit = true) ∨
       (∃ l, s.data = l ++ ['\n'] ∧ l.length = 10 ∧ l.all Char.isDigit = true)) := by
  unfold validate_phone pyDollarEnd
  simp only [Bool.and_eq_true, Bool.or_eq_true, beq_iff_eq, List.isEmpty_iff]
  constructor
  · rintro ⟨⟨hlen, hdig⟩, hend⟩
    rcases hend with hnil | hnl
    · left
      have hall : s.data = s.data.take 10 := by
        have h := List.take_append_drop 10 s.data
        rw [hnil] at h
        simpa using h.symm
      exact ⟨by rw [hall]; exact hlen, by rw [hall]; exact hdig⟩
    · right
      refine ⟨s.data.take 10, ?_, hlen, hdig⟩
      have h := List.take_append_drop 10 s.data
      rw [hnl] at h
      exact h.symm
  · rintro (⟨hlen, hdig⟩ | ⟨l, hdata, hlen, hdig⟩)
    · have htake : s.data.take 10 = s.data := by
        rw [← hlen]; exact List.take_length s.data
      have hdrop : s.data.drop 10 = [] := by
        rw [← hlen]; exact List.drop_length s.data
      exact ⟨⟨by rw [htake]; exact hlen, by rw [htake]; exact hdig⟩, Or.inl hdrop⟩
    · have htake : s.data.take 10 = l := by
        rw [hdata, ← hlen]; exact List.take_left l ['\n']
      have hdrop : s.data.drop 10 = ['\n'] := by
        rw [hdata, ← hlen]; exact List.drop_left l ['\n']
      exact ⟨⟨by rw [htake]; exact hlen, by rw [htake]; exact hdig⟩, Or.inr hdrop⟩

/-- Counterexample to C9 as stated: with zero client records but the counter
file present (as it always is after startup), `listar_clientes` prints
nothing at all instead of reporting "no records", because `listdir` also
sees the counter file. -/
theorem c9_counterexample :
    listar_clientes { records := [], counterFile := some 0 } = ListarResult.lines [] ∧
    listar_clientes { records := [], counterFile := some 0 } ≠ ListarResult.noRecords := by
  decide

/-- Claim C9, amended: `listar_clientes` reports "no records" exactly when
the directory is entirely empty — no record files and no counter file;
whenever the counter file is present (or any record exists) it prints one
summary line per successfully loaded record, and nothing else. -/
theorem c9_listar_clientes_amended (fs : FS) :
    (listar_clientes fs = ListarResult.noRecords ↔
      (fs.records = [] ∧ fs.counterFile = none)) ∧
    (fs.counterFile ≠ none →
      listar_clientes fs = ListarResult.lines (listarLines fs.records)) ∧
    (fs.records ≠ [] →
      listar_clientes fs = ListarResult.lines (listarLines fs.records)) ∧
    listarLines fs.records =
      fs.records.filterMap (fun p => p.2.map (fun c => (p.1, c))) := by
  have hiff : listdirIsEmpty fs = true ↔ (fs.records = [] ∧ fs.counterFile = none) := by
    simp [listdirIsEmpty, List.isEmpty_iff, Option.isNone_iff_eq_none]
  refine ⟨?_, ?_, ?_, listarLines_eq_filterMap fs.records⟩
  · constructor
    · intro h
      by_cases hE : listdirIsEmpty fs
      · exact hiff.mp hE
      · exfalso
        simp [listar_clientes, hE] at h
    · intro h
      simp [listar_clientes, hiff.mpr h]
  · intro hc
    have hE : ¬ listdirIsEmpty fs = true := fun hE => hc (hiff.mp hE).2
    simp [listar_clientes, hE]
  · intro hr
    have hE : ¬ listdirIsEmpty fs = true := fun hE => hr (hiff.mp hE).1
    simp [listar_clientes, hE]

/-- Claim C4: when any `crear_cliente` validation fails — empty given name,
empty family name, a type other than the two allowed values after
`capitalize`, or a contact passing neither validator — the operation aborts
without a created result and with no persisted side effect: the state, the
store entries, their count, the in-memory counter and the counter file are
unchanged. -/
theorem c4_crear_cliente_validation_aborts
    (nombre_in apellido_in tipo_in contacto_in fecha fechaHora : String) (s : AppState)
    (h : pyStrip nombre_in = "" ∨ pyStrip apellido_in = "" ∨
      ¬ (pyCapitalize (pyStrip tipo_in) = "Persona" ∨
         pyCapitalize (pyStrip tipo_in) = "Negocio") ∨
      (validate_phone (pyStrip contacto_in) = false ∧
       validate_email (pyStrip contacto_in) = false)) :
    (crear_cliente nombre_in apellido_in tipo_in contacto_in fecha fechaHora s).2 = s ∧
    (∀ cliente_id numero,
      (crear_cliente nombre_in apellido_in tipo_in contacto_in fecha fechaHora s).1 ≠
        CrearResult.created cliente_id numero) ∧
    (crear_cliente nombre_in apellido_in tipo_in contacto_in fecha fechaHora s).2.fs.records =
      s.fs.records ∧
    (crear_cliente nombre_in apellido_in tipo_in contacto_in fecha fechaHora
      s).2.fs.records.length = s.fs.records.length ∧
    (crear_cliente nombre_in apellido_in tipo_in contacto_in fecha fechaHora s).2.contador =
      s.contador ∧
    (crear_cliente nombre_in apellido_in tipo_in contacto_in fecha fechaHora
      s).2.fs.counterFile = s.fs.counterFile := by
  have key : (crear_cliente nombre_in apellido_in tipo_in contacto_in fecha fechaHora s).2 = s ∧
      ∀ cliente_id numero,
        (crear_cliente nombre_in apellido_in tipo_in contacto_in fecha fechaHora s).1 ≠
          CrearResult.created cliente_id numero := by
    rcases h with h1 | h2 | h3 | h4
    · unfold crear_cliente
      rw [h1]
      exact ⟨rfl, fun _ _ hc => nomatch hc⟩
    · unfold crear_cliente
      rw [h2]
      cases hd : (pyStrip nombre_in).data with
      | nil => exact ⟨rfl, fun _ _ hc => nomatch hc⟩
      | cons c rest => exact ⟨rfl, fun _ _ hc => nomatch hc⟩
    · unfold crear_cliente
      have hcond : (pyCapitalize (pyStrip tipo_in) == "Persona" ||
          pyCapitalize (pyStrip tipo_in) == "Negocio") = false := by
        rcases not_or.mp h3 with ⟨hp, hn⟩
        simp [hp, hn]
      cases hd : (pyStrip nombre_in).data with
      | nil => exact ⟨rfl, fun _ _ hc => nomatch hc⟩
      | cons c rest =>
        cases hd2 : (pyStrip apellido_in).data with
        | nil => exact ⟨rfl, fun _ _ hc => nomatch hc⟩
        | cons c2 rest2 =>
          simp only [hcond]
          exact ⟨rfl, fun _ _ hc => nomatch hc⟩
    · unfold crear_cliente
      have hcond : (validate_phone (pyStrip contacto_in) ||
          validate_email (pyStrip contacto_in)) = false := by
        rw [h4.1, h4.2]; rfl
      cases hd : (pyStrip nombre_in).data with
      | nil => exact ⟨rfl, fun _ _ hc => nomatch hc⟩
      | cons c rest =>
        cases hd2 : (pyStrip apellido_in).data with
        | nil => exact ⟨rfl, fun _ _ hc => nomatch hc⟩
        | cons c2 rest2 =>
          cases htipo : (pyCapitalize (pyStrip tipo_in) == "Persona" ||
              pyCapitalize (pyStrip tipo_in) == "Negocio") with
          | false => exact ⟨rfl, fun _ _ hc => nomatch hc⟩
          | true =>
            simp only [hcond]
            exact ⟨rfl, fun _ _ hc => nomatch hc⟩
  exact ⟨key.1, key.2, by rw [key.1], by rw [key.1], by rw [key.1], by rw [key.1]⟩

/-- Witness for C4 at the spec's own scenario: contact `"notanemail"` passes
neither validator, so the create aborts and the state is untouched. -/
theorem c4_witness :
    (pyStrip "Juan" = "" ∨ pyStrip "Perez" = "" ∨
      ¬ (pyCapitalize (pyStrip "persona") = "Persona" ∨
         pyCapitalize (pyStrip "persona") = "Negocio") ∨
      (validate_phone (pyStrip "notanemail") = false ∧
       validate_email (pyStrip "notanemail") = false)) ∧
    (crear_cliente "Juan" "Perez" "persona" "notanemail" "20250602"
      "2025-06-02 10:00:00" sampleState).2 = sampleState ∧
    (∀ cliente_id numero,
      (crear_cliente "Juan" "Perez" "persona" "notanemail" "20250602"
        "2025-06-02 10:00:00" sampleState).1 ≠ CrearResult.created cliente_id numero) :=
  have h : pyStrip "Juan" = "" ∨ pyStrip "Perez" = "" ∨
      ¬ (pyCapitalize (pyStrip "persona") = "Persona" ∨
         pyCapitalize (pyStrip "persona") = "Negocio") ∨
      (validate_phone (pyStrip "notanemail") = false ∧
       validate_email (pyStrip "notanemail") = false) :=
    Or.inr (Or.inr (Or.inr (by decide)))
  have hk := c4_crear_cliente_validation_aborts "Juan" "Perez" "persona" "notanemail"
    "20250602" "2025-06-02 10:00:00" sampleState h
  ⟨h, hk.1, hk.2.1⟩

/-- Claim C5: `modificar_cliente` with a valid criterion reports not found on
zero matches and changes nothing; reports ambiguity carrying the full
candidate list on several matches and changes nothing; and on exactly one
match with a non-empty service string appends exactly that service at the
end of the record's list (all previous services unchanged, in order, so 2
services become 3) and persists the updated record. -/
theorem c5_modificar_cliente (opcion valor servicio : String) (s : AppState)
    (criterio : String) (hcr : criterioOf (pyStrip opcion) = some criterio) :
    (buscar_clientes criterio (pyStrip valor) s = [] →
      modificar_cliente opcion valor servicio s = (ModResult.notFound, s)) ∧
    (∀ x y rest, buscar_clientes criterio (pyStrip valor) s = x :: y :: rest →
      modificar_cliente opcion valor servicio s =
        (ModResult.multiple (x :: y :: rest), s)) ∧
    (∀ cliente_id cliente,
      buscar_clientes criterio (pyStrip valor) s = [(cliente_id, cliente)] →
      pyStrip servicio ≠ "" →
      ∃ c, modificar_cliente opcion valor servicio s =
          (ModResult.ok cliente_id c, { s with fs := guardar_cliente cliente_id c s.fs }) ∧
        c.servicios = cliente.servicios ++ [pyStrip servicio] ∧
        c.servicios.length = cliente.servicios.length + 1 ∧
        c.servicios.take cliente.servicios.length = cliente.servicios ∧
        c.nombre = cliente.nombre ∧ c.apellido = cliente.apellido ∧
        c.tipo = cliente.tipo ∧ c.contacto = cliente.contacto ∧
        c.fecha_registro = cliente.fecha_registro ∧
        c.numero_cliente = cliente.numero_cliente ∧
        cargar_cliente cliente_id (modificar_cliente opcion valor servicio s).2.fs =
          some c) := by
  refine ⟨?_, ?_, ?_⟩
  · intro hb
    unfold modificar_cliente
    rw [hcr]
    dsimp only
    rw [hb]
  · intro x y rest hb
    unfold modificar_cliente
    rw [hcr]
    dsimp only
    rw [hb]
  · intro cliente_id cliente hb hserv
    have hd : (pyStrip servicio).data ≠ [] := by
      intro hnil
      exact hserv ((string_eq_iff_data _ "").mpr (by simp [hnil]))
    obtain ⟨ch, chs, hdata⟩ : ∃ ch chs, (pyStrip servicio).data = ch :: chs := by
      cases hd' : (pyStrip servicio).data with
      | nil => exact absurd hd' hd
      | cons ch chs => exact ⟨ch, chs, rfl⟩
    have heq : modificar_cliente opcion valor servicio s =
        (ModResult.ok cliente_id
          { cliente with servicios := cliente.servicios ++ [pyStrip servicio] },
         { s with fs := (guardar_cliente cliente_id
              { cliente with servicios := cliente.servicios ++ [pyStrip servicio] }
              s.fs) }) := by
      unfold modificar_cliente
      rw [hcr]
      dsimp only
      rw [hb]
      dsimp only
      rw [hdata]
    refine ⟨{ cliente with servicios := cliente.servicios ++ [pyStrip servicio] },
      heq, rfl, by simp, ?_, rfl, rfl, rfl, rfl, rfl, rfl, ?_⟩
    · show (cliente.servicios ++ [pyStrip servicio]).take cliente.servicios.length =
        cliente.servicios
      exact List.take_left cliente.servicios [pyStrip servicio]
    · rw [heq]
      exact cargarFile_setRecord cliente_id _ s.fs.records

/-- Witness for C5: appending service `"TV"` to the sample record, which has
two services, yields exactly three with the first two unchanged. -/
theorem c5_witness :
    criterioOf (pyStrip "2") = some "id" ∧
    buscar_clientes "id" (pyStrip "X1") sampleState = [("X1", sampleCliente)] ∧
    pyStrip "TV" ≠ "" ∧
    ∃ c, modificar_cliente "2" "X1" "TV" sampleState =
        (ModResult.ok "X1" c, { sampleState with fs := guardar_cliente "X1" c sampleState.fs }) ∧
      c.servicios = sampleCliente.servicios ++ [pyStrip "TV"] ∧
      c.servicios.length = sampleCliente.servicios.length + 1 ∧
      c.servicios.take sampleCliente.servicios.length = sampleCliente.servicios ∧
      c.nombre = sampleCliente.nombre ∧ c.apellido = sampleCliente.apellido ∧
      c.tipo = sampleCliente.tipo ∧ c.contacto = sampleCliente.contacto ∧
      c.fecha_registro = sampleCliente.fecha_registro ∧
      c.numero_cliente = sampleCliente.numero_cliente ∧
      cargar_cliente "X1" (modificar_cliente "2" "X1" "TV" sampleState).2.fs = some c :=
  ⟨by decide, by decide, by decide,
   (c5_modificar_cliente "2" "X1" "TV" sampleState "id" (by decide)).2.2
     "X1" sampleCliente (by decide) (by decide)⟩

/-- Claim C6: `eliminar_cliente` with a valid criterion reports not found on
zero matches and removes nothing, reports ambiguity with the candidate list
on several matches and removes nothing, and on exactly one match removes the
persisted record file and the in-memory cache entry, after which
`find('id', id)` returns the empty list. -/
theorem c6_eliminar_cliente (opcion valor : String) (s : AppState) (criterio : String)
    (hcr : criterioOf (pyStrip opcion) = some criterio)
    (hnd : (s.fs.records.map Prod.fst).Nodup) :
    (buscar_clientes criterio (pyStrip valor) s = [] →
      eliminar_cliente opcion valor s = (DelResult.notFound, s)) ∧
    (∀ x y rest, buscar_clientes criterio (pyStrip valor) s = x :: y :: rest →
      eliminar_cliente opcion valor s = (DelResult.multiple (x :: y :: rest), s)) ∧
    (∀ cliente_id cliente,
      buscar_clientes criterio (pyStrip valor) s = [(cliente_id, cliente)] →
      eliminar_cliente opcion valor s =
        (DelResult.ok cliente_id cliente.numero_cliente,
         { s with fs := { s.fs with records := removeRecord cliente_id s.fs.records },
                  clientes := cacheErase cliente_id s.clientes }) ∧
      buscar_clientes "id" cliente_id (eliminar_cliente opcion valor s).2 = [] ∧
      (eliminar_cliente opcion valor s).2.clientes cliente_id = none) := by
  refine ⟨?_, ?_, ?_⟩
  · intro hb
    unfold eliminar_cliente
    rw [hcr]
    dsimp only
    rw [hb]
  · intro x y rest hb
    unfold eliminar_cliente
    rw [hcr]
    dsimp only
    rw [hb]
  · intro cliente_id cliente hb
    have hmem : (cliente_id, some cliente) ∈ s.fs.records := by
      have := (mem_buscar_clientes criterio (pyStrip valor) s cliente_id cliente).mp
        (by rw [hb]; exact List.mem_singleton.mpr rfl)
      exact this.1
    have hkey : cliente_id ∈ s.fs.records.map Prod.fst :=
      List.mem_map.mpr ⟨(cliente_id, some cliente), hmem, rfl⟩
    have heq : eliminar_cliente opcion valor s =
        (DelResult.ok cliente_id cliente.numero_cliente,
         { s with fs := { s.fs with records := removeRecord cliente_id s.fs.records },
                  clientes := cacheErase cliente_id s.clientes }) := by
      unfold eliminar_cliente
      rw [hcr]
      dsimp only
      rw [hb]
      dsimp only
      rw [if_pos hkey]
    refine ⟨heq, ?_, ?_⟩
    · rw [heq]
      exact buscarLoop_id_nil cliente_id _ (keys_removeRecord cliente_id s.fs.records hnd)
    · rw [heq]
      show cacheErase cliente_id s.clientes cliente_id = none
      simp [cacheErase]

/-- Witness for C6: deleting the sample record by id empties the store and
the cache, and a subsequent search by that id finds nothing. -/
theorem c6_witness :
    criterioOf (pyStrip "2") = some "id" ∧
    (sampleState.fs.records.map Prod.fst).Nodup ∧
    buscar_clientes "id" (pyStrip "X1") sampleState = [("X1", sampleCliente)] ∧
    (eliminar_cliente "2" "X1" sampleState =
      (DelResult.ok "X1" sampleCliente.numero_cliente,
       { sampleState with
          fs := { sampleState.fs with
            records := removeRecord "X1" sampleState.fs.records },
          clientes := cacheErase "X1" sampleState.clientes }) ∧
     buscar_clientes "id" "X1" (eliminar_cliente "2" "X1" sampleState).2 = [] ∧
     (eliminar_cliente "2" "X1" sampleState).2.clientes "X1" = none) :=
  ⟨by decide, by decide, by decide,
   (c6_eliminar_cliente "2" "X1" sampleState "id" (by decide) (by decide)).2.2
     "X1" sampleCliente (by decide)⟩

/-- Claim C10: the in-memory `clientes` dict is write-only for observable
behaviour — with the same store directory and counter, any two cache
contents give identical search results, identical read output, identical
update result and store effect, and identical list output. -/
theorem c10_cache_write_only (fs : FS) (n : Nat)
    (cache₁ cache₂ : String → Option Cliente) (criterio valor opcion servicio : String) :
    buscar_clientes criterio valor ⟨fs, n, cache₁⟩ =
      buscar_clientes criterio valor ⟨fs, n, cache₂⟩ ∧
    leer_cliente opcion valor ⟨fs, n, cache₁⟩ = leer_cliente opcion valor ⟨fs, n, cache₂⟩ ∧
    (modificar_cliente opcion valor servicio ⟨fs, n, cache₁⟩).1 =
      (modificar_cliente opcion valor servicio ⟨fs, n, cache₂⟩).1 ∧
    (modificar_cliente opcion valor servicio ⟨fs, n, cache₁⟩).2.fs =
      (modificar_cliente opcion valor servicio ⟨fs, n, cache₂⟩).2.fs ∧
    (modificar_cliente opcion valor servicio ⟨fs, n, cache₁⟩).2.contador =
      (modificar_cliente opcion valor servicio ⟨fs, n, cache₂⟩).2.contador ∧
    listarApp ⟨fs, n, cache₁⟩ = listarApp ⟨fs, n, cache₂⟩ := by
  have hmod : ∀ (cache : String → Option Cliente),
      modificar_cliente opcion valor servicio ⟨fs, n, cache⟩ =
        (match criterioOf (pyStrip opcion) with
         | none => (ModResult.invalidOpcion, (⟨fs, n, cache⟩ : AppState))
         | some criterio =>
           match buscarLoop criterio (pyStrip valor) fs.records with
           | [] => (ModResult.notFound, (⟨fs, n, cache⟩ : AppState))
           | [(cliente_id, cliente)] =>
             match (pyStrip servicio).data with
             | [] => (ModResult.emptyServicio, (⟨fs, n, cache⟩ : AppState))
             | _ :: _ =>
               (ModResult.ok cliente_id
                 { cliente with
                    servicios := cliente.servicios ++ [pyStrip servicio] },
                (⟨guardar_cliente cliente_id
                   { cliente with
                      servicios := cliente.servicios ++ [pyStrip servicio] } fs,
                  n, cache⟩ : AppState))
           | x :: y :: rest => (ModResult.multiple (x :: y :: rest),
              (⟨fs, n, cache⟩ : AppState))) := fun cache => rfl
  refine ⟨rfl, rfl, ?_, ?_, ?_, rfl⟩ <;>
  · rw [hmod cache₁, hmod cache₂]
    cases criterioOf (pyStrip opcion) with
    | none => rfl
    | some cr =>
      dsimp only
      cases hb : buscarLoop cr (pyStrip valor) fs.records with
      | nil => rfl
      | cons x xs =>
        obtain ⟨cliente_id, cliente⟩ := x
        cases xs with
        | nil =>
          dsimp only
          cases hs : (pyStrip servicio).data with
          | nil => rfl
          | cons a b => rfl
        | cons y ys => rfl
